import Mathlib

/-!
# Ig1ImuProperties: the property handler of the IG1 inertial sensor

A shallow embedding of the class `zen::Ig1ImuProperties` declared in
`lib/openzen/src/properties/Ig1ImuProperties.h`, followed by the properties
proved about it.

The handler object is a record of its three data members (`m_cache`,
`m_communicator`, `m_streaming`).  A member function that may write to the
object takes the object and returns the object after the call next to its
C++ return value.  The atomics of the header are modelled by their stored
values: every member function here performs at most one store to one field.
-/

namespace zen

/-- Modelled from the spec: the typedef `ZenProperty_t` lives in a header that is
not among the sources.  The spec calls it a totally ordered token that
identifies one property or command; integers are used for it. -/
abbrev ZenProperty_t := Int

/-- Modelled from the spec: the enumeration `ZenError` lives in a header that is
not among the sources.  Only `ZenError_UnknownProperty` is named by the
header under study; the other constructors are the error kinds of the
spec's error taxonomy, and `ZenError_None` is the value a setter returns
when it reports success. -/
inductive ZenError where
  | ZenError_None
  | ZenError_UnknownProperty
  | ZenError_NotPermitted
  | ZenError_InsufficientBuffer
  | ZenError_DeviceCommunicationError
  | ZenError_Timeout
deriving DecidableEq, Repr

/-- Modelled from the spec: how one transaction on the communication channel
ends.  The channel (section 4.4 of the spec) either completes the
transaction or signals a timeout, a negative acknowledgement or a bus
fault.  The way a transaction ends is decided by the device and the bus, so
it is an input of every operation that drives the channel. -/
inductive ChannelOutcome where
  | completed
  | timeout
  | negativeAcknowledgement
  | busFault
deriving DecidableEq, Repr

/-- Modelled from the spec: the error the handler reports for a channel outcome;
a timeout becomes `Timeout`, the two other faults become
`DeviceCommunicationError`. -/
def ChannelOutcome.toZenError : ChannelOutcome → ZenError
  | .completed => ZenError.ZenError_None
  | .timeout => ZenError.ZenError_Timeout
  | .negativeAcknowledgement => ZenError.ZenError_DeviceCommunicationError
  | .busFault => ZenError.ZenError_DeviceCommunicationError

/-- Modelled from the spec: the class `SyncedModbusCommunicator` is declared in
`communication/SyncedModbusCommunicator.h`, which is not among the sources.
The spec describes a register-oriented channel to the device; it is
modelled by the content of the device registers.  The register that backs a
property is addressed by the property itself (the address table of the
device family is not part of the sources), and a register holds a raw
32-bit integer. -/
structure SyncedModbusCommunicator where
  registers : ZenProperty_t → Int

namespace SyncedModbusCommunicator

/-- Modelled from the spec: the typed register read of the channel.  A completed
transaction yields the raw register value, a fault yields its error. -/
def read (c : SyncedModbusCommunicator) (outcome : ChannelOutcome)
    (address : ZenProperty_t) : Except ZenError Int :=
  match outcome with
  | .completed => Except.ok (c.registers address)
  | fault => Except.error fault.toZenError

/-- Modelled from the spec: the typed register write of the channel.  A
completed transaction stores the raw value in the addressed register; a
fault leaves every register as it was (no partial write stays applied). -/
def write (c : SyncedModbusCommunicator) (outcome : ChannelOutcome)
    (address : ZenProperty_t) (raw : Int) : ZenError × SyncedModbusCommunicator :=
  match outcome with
  | .completed =>
      (ZenError.ZenError_None,
        { registers := fun a => if a = address then raw else c.registers a })
  | fault => (fault.toZenError, c)

end SyncedModbusCommunicator

/-- The nested struct `IMUState` (header lines 91-97) with its default member
initializers.  `outputDataBitset` is a `uint32_t`, a natural number below
`2 ^ 32`. -/
structure IMUState where
  radOutput : Bool := false
  lowPrecisionMode : Bool := false
  outputDataBitset : Nat := 0

/-- The data members of `Ig1ImuProperties` (header lines 97-101). -/
structure Ig1ImuProperties where
  m_cache : IMUState
  m_communicator : SyncedModbusCommunicator
  m_streaming : Bool

namespace Ig1ImuProperties

/-- Modelled from the spec: the constructor
`Ig1ImuProperties(SyncedModbusCommunicator&)` is only declared in the header,
its definition is not among the sources.  Following the spec, it binds the
handler to the channel and leaves `m_cache` to the default member
initializers of `IMUState`.  Neither the header nor the spec gives the
first value of `m_streaming`, so it is an argument. -/
def new (communicator : SyncedModbusCommunicator) (streaming : Bool) : Ig1ImuProperties :=
  { m_cache := {}, m_communicator := communicator, m_streaming := streaming }

/-- Header line 45:
`getUInt64(ZenProperty_t) { return nonstd::make_unexpected(ZenError_UnknownProperty); }`.
The function is not `const`, so the object after the call is returned too. -/
def getUInt64 (self : Ig1ImuProperties) (_property : ZenProperty_t) :
    Except ZenError Nat × Ig1ImuProperties :=
  (Except.error ZenError.ZenError_UnknownProperty, self)

/-- Header line 60:
`setUInt64(ZenProperty_t, uint64_t) { return ZenError_UnknownProperty; }`. -/
def setUInt64 (self : Ig1ImuProperties) (_property : ZenProperty_t) (_value : Nat) :
    ZenError × Ig1ImuProperties :=
  (ZenError.ZenError_UnknownProperty, self)

/-- Header line 75:
`setOutputDataBitset(uint32_t bitset) { m_cache.outputDataBitset = bitset; }`. -/
def setOutputDataBitset (self : Ig1ImuProperties) (bitset : Nat) : Ig1ImuProperties :=
  { self with m_cache := { self.m_cache with outputDataBitset := bitset } }

/-- Header line 78:
`setLowPrecisionMode(bool modeOne) { m_cache.lowPrecisionMode = modeOne; }`. -/
def setLowPrecisionMode (self : Ig1ImuProperties) (modeOne : Bool) : Ig1ImuProperties :=
  { self with m_cache := { self.m_cache with lowPrecisionMode := modeOne } }

/-- Header line 81:
`setRadOutput(bool radOutput) { m_cache.radOutput = radOutput; }`. -/
def setRadOutput (self : Ig1ImuProperties) (radOutput : Bool) : Ig1ImuProperties :=
  { self with m_cache := { self.m_cache with radOutput := radOutput } }

/-- Modelled from the spec: `getInt32AsBool` is only declared in the header
(line 86), its definition is not among the sources.  Following the spec's
representation rule, it reads the raw 32-bit register of the property over
the channel and decodes 0 as false and any other value as true; a channel
fault is returned as the error.  The read leaves the handler as it is. -/
def getInt32AsBool (self : Ig1ImuProperties) (outcome : ChannelOutcome)
    (property : ZenProperty_t) : Except ZenError Bool :=
  match self.m_communicator.read outcome property with
  | Except.ok raw => Except.ok (raw != 0)
  | Except.error e => Except.error e

/-- Modelled from the spec: `setInt32AsBool` is only declared in the header
(line 89), its definition is not among the sources.  Following the spec's
representation rule, it encodes false as 0 and true as 1 and writes that raw
value to the register of the property over the channel, returning the
channel's status. -/
def setInt32AsBool (self : Ig1ImuProperties) (outcome : ChannelOutcome)
    (property : ZenProperty_t) (value : Bool) : ZenError × Ig1ImuProperties :=
  let iValue : Int := if value then 1 else 0
  let r := self.m_communicator.write outcome property iValue
  (r.1, { self with m_communicator := r.2 })

end Ig1ImuProperties

/-- A handler whose register 3 holds the raw value -5, for concrete
evaluations. -/
def rawHandler : Ig1ImuProperties :=
  { m_cache := {},
    m_communicator := { registers := fun a => if a = 3 then -5 else 0 },
    m_streaming := false }

end zen

namespace zen

open ZenError

/-- C1: for every handler state and every property id, `getUInt64` returns the error
`ZenError_UnknownProperty`; it returns no value, and the result is the same
for any two ids. -/
theorem getUInt64_always_unknownProperty (self : Ig1ImuProperties) (property : ZenProperty_t) :
    (self.getUInt64 property).1 = Except.error ZenError_UnknownProperty ∧
    (∀ v : Nat, (self.getUInt64 property).1 ≠ Except.ok v) ∧
    (∀ other : ZenProperty_t, (self.getUInt64 other).1 = (self.getUInt64 property).1) := by
  refine ⟨rfl, ?_, fun _ => rfl⟩
  intro v h
  simp [Ig1ImuProperties.getUInt64] at h

/-- C2: for every handler state, every property id and every value, `setUInt64`
returns `ZenError_UnknownProperty`, which is not the success status. -/
theorem setUInt64_always_unknownProperty (self : Ig1ImuProperties) (property : ZenProperty_t)
    (value : Nat) :
    (self.setUInt64 property value).1 = ZenError_UnknownProperty ∧
    (self.setUInt64 property value).1 ≠ ZenError_None := by
  refine ⟨rfl, ?_⟩
  simp [Ig1ImuProperties.setUInt64]

/-- C3: the failing `setUInt64` has no side effect: it returns
`ZenError_UnknownProperty`, and the handler after the call has the same
`radOutput`, `lowPrecisionMode`, `outputDataBitset` and streaming flag (and
the same device registers) as before. -/
theorem setUInt64_side_effect_free (self : Ig1ImuProperties) (property : ZenProperty_t)
    (value : Nat) :
    (self.setUInt64 property value).1 = ZenError_UnknownProperty ∧
    (self.setUInt64 property value).2.m_cache.radOutput = self.m_cache.radOutput ∧
    (self.setUInt64 property value).2.m_cache.lowPrecisionMode = self.m_cache.lowPrecisionMode ∧
    (self.setUInt64 property value).2.m_cache.outputDataBitset = self.m_cache.outputDataBitset ∧
    (self.setUInt64 property value).2.m_streaming = self.m_streaming ∧
    (self.setUInt64 property value).2.m_communicator = self.m_communicator :=
  ⟨rfl, rfl, rfl, rfl, rfl, rfl⟩

/-- C4: the cache of a freshly constructed handler is zero/false-initialized,
whatever channel it is bound to and whatever the streaming flag starts as:
`radOutput = false`, `lowPrecisionMode = false`, `outputDataBitset = 0`. -/
theorem new_cache_zero_initialized (communicator : SyncedModbusCommunicator) (streaming : Bool) :
    (Ig1ImuProperties.new communicator streaming).m_cache.radOutput = false ∧
    (Ig1ImuProperties.new communicator streaming).m_cache.lowPrecisionMode = false ∧
    (Ig1ImuProperties.new communicator streaming).m_cache.outputDataBitset = 0 :=
  ⟨rfl, rfl, rfl⟩

/-- C5: each initialization hook stores its argument exactly in its own cache
field: after `setOutputDataBitset b` the cached bitset is `b` itself (so no
bit of a 32-bit argument is masked or dropped), after
`setLowPrecisionMode m` the cached mode is `m`, after `setRadOutput r` the
cached unit flag is `r`. -/
theorem hooks_store_argument (self : Ig1ImuProperties) (b : Nat) (m r : Bool) :
    (self.setOutputDataBitset b).m_cache.outputDataBitset = b ∧
    (self.setLowPrecisionMode m).m_cache.lowPrecisionMode = m ∧
    (self.setRadOutput r).m_cache.radOutput = r :=
  ⟨rfl, rfl, rfl⟩

/-- C6: a hook changes only its own cache field: `setOutputDataBitset` leaves
`radOutput` and `lowPrecisionMode`, `setLowPrecisionMode` leaves `radOutput`
and `outputDataBitset`, `setRadOutput` leaves `lowPrecisionMode` and
`outputDataBitset`, and none of the three changes the streaming flag. -/
theorem hooks_frame (self : Ig1ImuProperties) (b : Nat) (m r : Bool) :
    ((self.setOutputDataBitset b).m_cache.radOutput = self.m_cache.radOutput ∧
      (self.setOutputDataBitset b).m_cache.lowPrecisionMode = self.m_cache.lowPrecisionMode ∧
      (self.setOutputDataBitset b).m_streaming = self.m_streaming) ∧
    ((self.setLowPrecisionMode m).m_cache.radOutput = self.m_cache.radOutput ∧
      (self.setLowPrecisionMode m).m_cache.outputDataBitset = self.m_cache.outputDataBitset ∧
      (self.setLowPrecisionMode m).m_streaming = self.m_streaming) ∧
    ((self.setRadOutput r).m_cache.lowPrecisionMode = self.m_cache.lowPrecisionMode ∧
      (self.setRadOutput r).m_cache.outputDataBitset = self.m_cache.outputDataBitset ∧
      (self.setRadOutput r).m_streaming = self.m_streaming) :=
  ⟨⟨rfl, rfl, rfl⟩, ⟨rfl, rfl, rfl⟩, ⟨rfl, rfl, rfl⟩⟩

/-- C8: `getUInt64` never mutates state: for every handler state and every
property id the handler after the call is the handler before it, so all
three cache fields and the streaming flag are unchanged. -/
theorem getUInt64_state_unchanged (self : Ig1ImuProperties) (property : ZenProperty_t) :
    (self.getUInt64 property).2 = self ∧
    (self.getUInt64 property).2.m_cache.radOutput = self.m_cache.radOutput ∧
    (self.getUInt64 property).2.m_cache.lowPrecisionMode = self.m_cache.lowPrecisionMode ∧
    (self.getUInt64 property).2.m_cache.outputDataBitset = self.m_cache.outputDataBitset ∧
    (self.getUInt64 property).2.m_streaming = self.m_streaming :=
  ⟨rfl, rfl, rfl, rfl, rfl⟩

/-- Helper: writing the bitset once more after any run of earlier writes gives
the handler that the last write alone gives. -/
theorem foldl_setOutputDataBitset_last (xs : List Nat) (b : Nat) (self : Ig1ImuProperties) :
    (xs ++ [b]).foldl Ig1ImuProperties.setOutputDataBitset self = self.setOutputDataBitset b := by
  induction xs generalizing self with
  | nil => rfl
  | cons x xs ih => rw [List.cons_append, List.foldl_cons, ih]; rfl

/-- Helper: the same for the low-precision hook. -/
theorem foldl_setLowPrecisionMode_last (xs : List Bool) (b : Bool) (self : Ig1ImuProperties) :
    (xs ++ [b]).foldl Ig1ImuProperties.setLowPrecisionMode self = self.setLowPrecisionMode b := by
  induction xs generalizing self with
  | nil => rfl
  | cons x xs ih => rw [List.cons_append, List.foldl_cons, ih]; rfl

/-- Helper: the same for the angle-unit hook. -/
theorem foldl_setRadOutput_last (xs : List Bool) (b : Bool) (self : Ig1ImuProperties) :
    (xs ++ [b]).foldl Ig1ImuProperties.setRadOutput self = self.setRadOutput b := by
  induction xs generalizing self with
  | nil => rfl
  | cons x xs ih => rw [List.cons_append, List.foldl_cons, ih]; rfl

/-- C9: the boolean-over-integer round trip.  When the channel completes the
write, `setInt32AsBool property true` reports success, the raw register of
the property then holds 1 (so it is nonzero) and `getInt32AsBool` reads
true; `setInt32AsBool property false` reports success, the raw register
then holds exactly 0 and `getInt32AsBool` reads false.  A set reports
success only when the channel completed the write.  On a completed read
`getInt32AsBool` decodes a raw 0 as false and every nonzero raw value as
true. -/
theorem int32AsBool_round_trip (self : Ig1ImuProperties) (property : ZenProperty_t)
    (outcome : ChannelOutcome) (value : Bool) :
    ((self.setInt32AsBool .completed property true).1 = ZenError_None ∧
      (self.setInt32AsBool .completed property true).2.m_communicator.registers property = 1 ∧
      (self.setInt32AsBool .completed property true).2.m_communicator.registers property ≠ 0 ∧
      (self.setInt32AsBool .completed property true).2.getInt32AsBool .completed property
        = Except.ok true) ∧
    ((self.setInt32AsBool .completed property false).1 = ZenError_None ∧
      (self.setInt32AsBool .completed property false).2.m_communicator.registers property = 0 ∧
      (self.setInt32AsBool .completed property false).2.getInt32AsBool .completed property
        = Except.ok false) ∧
    ((self.setInt32AsBool outcome property value).1 = ZenError_None ↔ outcome = .completed) ∧
    (self.m_communicator.registers property = 0 →
      self.getInt32AsBool .completed property = Except.ok false) ∧
    (self.m_communicator.registers property ≠ 0 →
      self.getInt32AsBool .completed property = Except.ok true) := by
  refine ⟨⟨rfl, ?_, ?_, ?_⟩, ⟨rfl, ?_, ?_⟩, ?_, ?_, ?_⟩
  · simp [Ig1ImuProperties.setInt32AsBool, SyncedModbusCommunicator.write]
  · simp [Ig1ImuProperties.setInt32AsBool, SyncedModbusCommunicator.write]
  · simp [Ig1ImuProperties.setInt32AsBool, Ig1ImuProperties.getInt32AsBool,
      SyncedModbusCommunicator.write, SyncedModbusCommunicator.read]
  · simp [Ig1ImuProperties.setInt32AsBool, SyncedModbusCommunicator.write]
  · simp [Ig1ImuProperties.setInt32AsBool, Ig1ImuProperties.getInt32AsBool,
      SyncedModbusCommunicator.write, SyncedModbusCommunicator.read]
  · cases outcome <;>
      simp [Ig1ImuProperties.setInt32AsBool, SyncedModbusCommunicator.write,
        ChannelOutcome.toZenError]
  · intro h
    simp [Ig1ImuProperties.getInt32AsBool, SyncedModbusCommunicator.read, h]
  · intro h
    simp [Ig1ImuProperties.getInt32AsBool, SyncedModbusCommunicator.read, h]

/-- Witness of C9: register 3 of `rawHandler` holds -5, a nonzero raw value, and
a completed read of it yields true; a completed write of false to register
3 leaves the register at 0. -/
theorem int32AsBool_round_trip_witness :
    rawHandler.m_communicator.registers 3 ≠ 0 ∧
    rawHandler.getInt32AsBool .completed 3 = Except.ok true ∧
    (rawHandler.setInt32AsBool .completed 3 false).2.m_communicator.registers 3 = 0 :=
  ⟨by decide,
    (int32AsBool_round_trip rawHandler 3 .completed false).2.2.2.2 (by decide),
    (int32AsBool_round_trip rawHandler 3 .completed false).2.1.2.1⟩

/-- C10: the hooks are not one-shot and the last write wins.  A second call of a
hook takes effect: after `set a; set b` the field holds `b` and the handler
is the one `set b` alone gives.  The same holds after any number of earlier
calls: after the calls `xs` followed by `b` the field holds `b`.  Calling a
hook twice with one argument equals calling it once, and the field holds
that argument.  Hooks on different fields commute, and after both calls each
field holds the argument of its own hook. -/
theorem hooks_last_write_wins (self : Ig1ImuProperties) (a b : Nat) (m n r q : Bool)
    (bitsets : List Nat) (ms rs : List Bool) :
    (((self.setOutputDataBitset a).setOutputDataBitset b).m_cache.outputDataBitset = b ∧
      ((self.setLowPrecisionMode m).setLowPrecisionMode n).m_cache.lowPrecisionMode = n ∧
      ((self.setRadOutput r).setRadOutput q).m_cache.radOutput = q) ∧
    ((self.setOutputDataBitset a).setOutputDataBitset b = self.setOutputDataBitset b ∧
      (self.setLowPrecisionMode m).setLowPrecisionMode n = self.setLowPrecisionMode n ∧
      (self.setRadOutput r).setRadOutput q = self.setRadOutput q) ∧
    (((bitsets ++ [b]).foldl Ig1ImuProperties.setOutputDataBitset self).m_cache.outputDataBitset
        = b ∧
      ((ms ++ [n]).foldl Ig1ImuProperties.setLowPrecisionMode self).m_cache.lowPrecisionMode
        = n ∧
      ((rs ++ [q]).foldl Ig1ImuProperties.setRadOutput self).m_cache.radOutput = q) ∧
    ((bitsets ++ [b]).foldl Ig1ImuProperties.setOutputDataBitset self = self.setOutputDataBitset b ∧
      (ms ++ [n]).foldl Ig1ImuProperties.setLowPrecisionMode self = self.setLowPrecisionMode n ∧
      (rs ++ [q]).foldl Ig1ImuProperties.setRadOutput self = self.setRadOutput q) ∧
    (((self.setOutputDataBitset a).setOutputDataBitset a = self.setOutputDataBitset a ∧
        ((self.setOutputDataBitset a).setOutputDataBitset a).m_cache.outputDataBitset = a) ∧
      ((self.setLowPrecisionMode m).setLowPrecisionMode m = self.setLowPrecisionMode m ∧
        ((self.setLowPrecisionMode m).setLowPrecisionMode m).m_cache.lowPrecisionMode = m) ∧
      ((self.setRadOutput r).setRadOutput r = self.setRadOutput r ∧
        ((self.setRadOutput r).setRadOutput r).m_cache.radOutput = r)) ∧
    (((self.setOutputDataBitset a).setLowPrecisionMode m
          = (self.setLowPrecisionMode m).setOutputDataBitset a ∧
        ((self.setOutputDataBitset a).setLowPrecisionMode m).m_cache.outputDataBitset = a ∧
        ((self.setOutputDataBitset a).setLowPrecisionMode m).m_cache.lowPrecisionMode = m) ∧
      ((self.setOutputDataBitset a).setRadOutput r
          = (self.setRadOutput r).setOutputDataBitset a ∧
        ((self.setOutputDataBitset a).setRadOutput r).m_cache.outputDataBitset = a ∧
        ((self.setOutputDataBitset a).setRadOutput r).m_cache.radOutput = r) ∧
      ((self.setLowPrecisionMode m).setRadOutput r
          = (self.setRadOutput r).setLowPrecisionMode m ∧
        ((self.setLowPrecisionMode m).setRadOutput r).m_cache.lowPrecisionMode = m ∧
        ((self.setLowPrecisionMode m).setRadOutput r).m_cache.radOutput = r)) := by
  refine ⟨⟨rfl, rfl, rfl⟩, ⟨rfl, rfl, rfl⟩, ⟨?_, ?_, ?_⟩,
    ⟨foldl_setOutputDataBitset_last bitsets b self, foldl_setLowPrecisionMode_last ms n self,
      foldl_setRadOutput_last rs q self⟩,
    ⟨⟨rfl, rfl⟩, ⟨rfl, rfl⟩, ⟨rfl, rfl⟩⟩,
    ⟨⟨rfl, rfl, rfl⟩, ⟨rfl, rfl, rfl⟩, ⟨rfl, rfl, rfl⟩⟩⟩
  · rw [foldl_setOutputDataBitset_last]; rfl
  · rw [foldl_setLowPrecisionMode_last]; rfl
  · rw [foldl_setRadOutput_last]; rfl

end zen
